import Mathlib

/-!
Shallow embedding of the EgoMirror voice-chat client core (src/App.tsx of
itzsahil-prog/EgoMirror--Self-Talk), covering the session state machine
(startSession / stopSession, lines 50-65 and 67-186), the live-transport
event handler onmessage (lines 128-169), the capture frame callback
(processor.onaudioprocess, lines 114-120), and the UI dispatch that invokes
these operations (lines 240-258).

Modelling conventions: the React refs and useState cells that the handlers
mutate are collected into one AppState record; each handler becomes a pure
state transformer.  Times are rationals (seconds of the output AudioContext).
crypto.randomUUID is modelled by a counter field that the Turn-emitting code
reads and advances, so that each generated id is fresh.  The external
Transport session object is modelled by a numeric handle; the only effect of
session.close that the claims observe - whether it was invoked - is returned
alongside the new state.  Event handlers run one at a time in arrival order
(the host dispatches them on a single execution context).
-/

namespace EgoMirror

/-- Session lifecycle states, from src/types.ts (`SessionState`). -/
inductive SessionState
  | disconnected
  | connecting
  | connected
  | error
deriving DecidableEq, Repr

/-- Speaker tag of a transcript turn, from src/types.ts (`Message.role`). -/
inductive Role
  | user
  | model
deriving DecidableEq, Repr

/-- A committed transcript turn, from src/types.ts (`Message`).  The UUID
string id is modelled by a natural number. -/
structure Message where
  id : Nat
  role : Role
  text : String
  timestamp : Nat
deriving DecidableEq, Repr

/-- One scheduled playback source (an AudioBufferSourceNode together with the
start time it was given and the duration of its buffer), as registered in
sourcesRef (src/App.tsx lines 156-162). -/
structure Source where
  startTime : ℚ
  duration : ℚ
deriving DecidableEq, Repr

/-- The mutable cells of the component that the claims are about: the
useState cells sessionState, error and messages, and the refs
activeSessionRef, streamRef, sourcesRef, nextStartTimeRef, currentInputRef
and currentOutputRef (src/App.tsx lines 23-48).  uuidCounter models the
state of the external UUID generator: each call of crypto.randomUUID
returns the current counter value and advances it, so successive ids are
distinct. -/
structure AppState where
  sessionState : SessionState
  error : Option String
  messages : List Message
  activeSession : Option Nat
  stream : Bool
  sources : List Source
  nextStartTime : ℚ
  currentInput : String
  currentOutput : String
  uuidCounter : Nat
deriving DecidableEq, Repr

/-- The state of the component right after mount: disconnected, no error, no
messages, no session, no stream, empty source set, clock at zero, empty
accumulators (src/App.tsx lines 23-48). -/
def initState : AppState :=
  { sessionState := .disconnected
    error := none
    messages := []
    activeSession := none
    stream := false
    sources := []
    nextStartTime := 0
    currentInput := ""
    currentOutput := ""
    uuidCounter := 0 }

/-- One incoming LiveServerMessage as read by onmessage: the optional
transcription deltas, the turnComplete flag, the optional inline audio
payload (recorded as its decoded sample count), and the interrupted flag
(src/App.tsx lines 128-169). -/
structure ServerContent where
  outputTranscription : Option String
  inputTranscription : Option String
  turnComplete : Bool
  audioSamples : Option Nat
  interrupted : Bool
deriving DecidableEq, Repr

/-- Output AudioContext sample rate, 24000 Hz (src/App.tsx line 76). -/
def SAMPLE_RATE : ℚ := 24000

/-- Modelled from the spec: the repository imports decodeAudioData from
src/utils/audio, a file absent from src/.  Per spec section 4.1 the decoder
reinterprets the payload as 16-bit samples and builds a playable buffer at
the given rate, so a payload of n samples yields a buffer whose duration is
n / 24000 seconds; only this duration is needed here. -/
def chunkDuration (samples : Nat) : ℚ := (samples : ℚ) / SAMPLE_RATE

/-- stopSession (src/App.tsx lines 50-65): close the active session handle
if any and null it, stop and drop the microphone stream, stop every source
and clear the set, reset the clock to zero, set state disconnected.  The
Bool result records whether session.close was invoked (it is, exactly when
a handle was present). -/
def stopSession (s : AppState) : AppState × Bool :=
  ({ s with
      activeSession := none
      stream := false
      sources := []
      nextStartTime := 0
      sessionState := .disconnected },
   s.activeSession.isSome)

/-- The synchronous prefix of startSession (src/App.tsx lines 67-70): set
state connecting and clear the error slot.  No state is checked first — the
function body begins with these two calls unconditionally. -/
def startSessionBegin (s : AppState) : AppState :=
  { s with sessionState := .connecting, error := none }

/-- The onopen callback (src/App.tsx lines 108-109): set state connected. -/
def onopen (s : AppState) : AppState :=
  { s with sessionState := .connected }

/-- Resolution of the connect promise (src/App.tsx line 180): store the new
session handle in activeSessionRef, overwriting whatever was there. -/
def sessionResolve (handle : Nat) (s : AppState) : AppState :=
  { s with activeSession := some handle }

/-- Transcription-delta handling (src/App.tsx lines 130-134).  Note the
else-if: when an event carries both an outputTranscription and an
inputTranscription, only the output delta is appended. -/
def appendTranscripts (msg : ServerContent) (s : AppState) : AppState :=
  match msg.outputTranscription with
  | some t => { s with currentOutput := s.currentOutput ++ t }
  | none =>
    match msg.inputTranscription with
    | some t => { s with currentInput := s.currentInput ++ t }
    | none => s

/-- turnComplete handling (src/App.tsx lines 136-148): trim both
accumulators; when at least one trimmed text is non-empty, append to
messages a user turn for a non-empty user text and then a model turn for a
non-empty model text, each with a fresh id and the current timestamp; reset
both accumulators unconditionally. -/
def handleTurnComplete (now : Nat) (s : AppState) : AppState :=
  let uText := s.currentInput.trim
  let mText := s.currentOutput.trim
  let s1 :=
    if uText ≠ "" ∨ mText ≠ "" then
      let uTurns : List Message :=
        if uText ≠ "" then [{ id := s.uuidCounter, role := .user, text := uText, timestamp := now }] else []
      let mTurns : List Message :=
        if mText ≠ "" then [{ id := s.uuidCounter + uTurns.length, role := .model, text := mText, timestamp := now }] else []
      { s with
          messages := s.messages ++ uTurns ++ mTurns
          uuidCounter := s.uuidCounter + uTurns.length + mTurns.length }
    else s
  { s1 with currentInput := "", currentOutput := "" }

/-- Audio-chunk scheduling (src/App.tsx lines 152-162): raise the clock to
the current device time if it fell behind, start a new source at the clock,
advance the clock by the buffer duration, and register the source in the
active set.  deviceTime is ctx.currentTime at the moment of scheduling. -/
def scheduleAudio (samples : Nat) (deviceTime : ℚ) (s : AppState) : AppState :=
  let startTime := max s.nextStartTime deviceTime
  let d := chunkDuration samples
  { s with
      sources := s.sources ++ [{ startTime := startTime, duration := d }]
      nextStartTime := startTime + d }

/-- interrupted handling (src/App.tsx lines 165-169): stop every source,
clear the set, reset the clock to zero. -/
def handleInterrupted (s : AppState) : AppState :=
  { s with sources := [], nextStartTime := 0 }

/-- The whole onmessage handler (src/App.tsx lines 128-169), in source
order: transcription deltas, then turnComplete, then audio scheduling, then
interruption.  deviceTime is ctx.currentTime when the audio branch runs and
now is Date.now for this dispatch. -/
def onmessage (msg : ServerContent) (deviceTime : ℚ) (now : Nat) (s : AppState) : AppState :=
  let s1 := appendTranscripts msg s
  let s2 := if msg.turnComplete then handleTurnComplete now s1 else s1
  let s3 :=
    match msg.audioSamples with
    | some n => scheduleAudio n deviceTime s2
    | none => s2
  if msg.interrupted then handleInterrupted s3 else s3

/-- The message shown by the onerror callback (src/App.tsx line 173). -/
def errorMessage : String := "The mirror lost its focus. Let's try again."

/-- The onerror callback (src/App.tsx lines 171-175): record the fixed
user-visible message in the error slot, then perform a full stop. -/
def onerror (s : AppState) : AppState × Bool :=
  stopSession { s with error := some errorMessage }

/-- The onclose callback (src/App.tsx line 176): a full stop. -/
def onclose (s : AppState) : AppState × Bool :=
  stopSession s

/-- The capture frame callback processor.onaudioprocess (src/App.tsx lines
114-120): when the session promise resolution fires, the frame is sent iff
the resolved session is non-null and activeSessionRef still holds a handle.
Returns the handle of the session the frame is sent to, or none when the
callback is a no-op. -/
def onAudioProcess (resolvedSession : Option Nat) (s : AppState) : Option Nat :=
  match resolvedSession with
  | some sess => if s.activeSession.isSome then some sess else none
  | none => none

/-- Actions the round microphone button can take. -/
inductive MicAction
  | start
  | stop
  | disabled
deriving DecidableEq, Repr

/-- The microphone button dispatch (src/App.tsx lines 256-258): when
connected the click stops the session; while connecting the button is
disabled; otherwise the click starts a session. -/
def micButtonAction (st : SessionState) : MicAction :=
  if st = .connected then .stop
  else if st = .connecting then .disabled
  else .start

/-- The starter-prompt buttons, which invoke startSession, are rendered only
in the disconnected state (src/App.tsx lines 240-253). -/
def starterPromptsVisible (st : SessionState) : Bool :=
  st = .disconnected

/-- Fold of the scheduler over a list of arrivals: each arrival carries the
device time at which it is scheduled and its decoded sample count.  This is
the repeated execution of the audio branch of onmessage for a stream of
audio-only events. -/
def runSchedule : List (ℚ × Nat) → AppState → AppState
  | [], s => s
  | (t, n) :: rest, s => runSchedule rest (scheduleAudio n t s)

/-- The back-to-back schedule: sources starting at the given time and
following one another with no gap, each lasting its chunk duration. -/
def backToBack (start : ℚ) : List Nat → List Source
  | [] => []
  | n :: rest =>
      { startTime := start, duration := chunkDuration n } :: backToBack (start + chunkDuration n) rest

/-- Every arrival in the list reaches the scheduler while the device time is
at most the virtual clock (the previously scheduled audio has not finished
playing), the clock being advanced as the scheduler would. -/
def laterArrivalsOnTime : ℚ → List (ℚ × Nat) → Bool
  | _, [] => true
  | clock, (t, n) :: rest =>
      decide (t ≤ clock) && laterArrivalsOnTime (max clock t + chunkDuration n) rest

/-- A state with a connected session holding handle 1, used as a concrete
input below. -/
def connState : AppState :=
  { initState with sessionState := .connected, activeSession := some 1 }

/-- A state with pending user transcript text "x", used as a concrete input
below. -/
def preState : AppState :=
  { initState with currentInput := "x" }

/-- C6: stop() is idempotent and safe from every state including before any
session exists: both the first and the second stopSession leave the state
disconnected, the second stopSession changes nothing and does not invoke
close (so close runs at most once per session — exactly when a handle was
present), and no error is raised or recorded. -/
theorem C6_stop_idempotent (s : AppState) :
    (stopSession s).1.sessionState = SessionState.disconnected ∧
    (stopSession (stopSession s).1).1.sessionState = SessionState.disconnected ∧
    (stopSession (stopSession s).1).1 = (stopSession s).1 ∧
    (stopSession (stopSession s).1).2 = false ∧
    (stopSession s).2 = s.activeSession.isSome ∧
    (stopSession s).1.error = s.error :=
  ⟨rfl, rfl, rfl, rfl, rfl, rfl⟩

/-- C8: after a full stop — whether by stop(), the transport error handler
or the transport close handler — the capture frame callback is a no-op for
every possible resolution of the session promise, because the send is
guarded on activeSessionRef, which the stop nulled. -/
theorem C8_no_send_after_stop (resolved : Option Nat) (s : AppState) :
    onAudioProcess resolved (stopSession s).1 = none ∧
    onAudioProcess resolved (onerror s).1 = none ∧
    onAudioProcess resolved (onclose s).1 = none := by
  cases resolved <;>
    simp [onAudioProcess, stopSession, onerror, onclose]

/-- C9: on a transport error the fixed user-visible message is written into
the single error slot (overwriting whatever was there), a full stop runs so
the state ends disconnected with the handle cleared and nothing restarted,
and the slot is cleared again by the next start() attempt. -/
theorem C9_error_recorded_then_stop (s s2 : AppState) :
    (onerror s).1.error = some errorMessage ∧
    (onerror s).1.sessionState = SessionState.disconnected ∧
    (onerror s).1.activeSession = none ∧
    (onerror s).1.stream = false ∧
    (startSessionBegin s2).error = none :=
  ⟨rfl, rfl, rfl, rfl, rfl⟩

/-- C10: a full stop leaves both transcript accumulators, the committed
transcript log, and the error slot untouched, and therefore the first
turnComplete handled after the stop commits exactly the turns that would
have been committed before it. -/
theorem C10_stop_preserves_transcript (s : AppState) (now : Nat) :
    (stopSession s).1.currentInput = s.currentInput ∧
    (stopSession s).1.currentOutput = s.currentOutput ∧
    (stopSession s).1.messages = s.messages ∧
    (stopSession s).1.uuidCounter = s.uuidCounter ∧
    (handleTurnComplete now (stopSession s).1).messages =
      (handleTurnComplete now s).messages := by
  refine ⟨rfl, rfl, rfl, rfl, ?_⟩
  by_cases hu : s.currentInput.trim = "" <;>
    by_cases hm : s.currentOutput.trim = "" <;>
      simp [stopSession, handleTurnComplete, hu, hm]

/-- C5 counterexample: startSession is not rejected outside the
disconnected state.  In the connected state with live handle 1, calling it
moves the state to connecting — an effect — and when its connect promise
resolves (handle 2) the previous handle is overwritten without ever having
been closed. -/
theorem C5_start_unguarded_cex :
    connState.sessionState = SessionState.connected ∧
    (startSessionBegin connState).sessionState = SessionState.connecting ∧
    SessionState.connecting ≠ SessionState.connected ∧
    connState.activeSession = some 1 ∧
    (sessionResolve 2 (startSessionBegin connState)).activeSession = some 2 ∧
    (2 : Nat) ≠ 1 := by
  refine ⟨rfl, rfl, by decide, rfl, rfl, by decide⟩

/-- C5 amended: startSession itself performs no state guard — from any
state it proceeds to connecting — and the single-session discipline is
enforced by the UI layer: the microphone button stops when connected, is
disabled while connecting, and starts otherwise, and the starter-prompt
buttons that also invoke start are rendered only when disconnected. -/
theorem C5_ui_guard (s : AppState) :
    (startSessionBegin s).sessionState = SessionState.connecting ∧
    micButtonAction SessionState.connected = MicAction.stop ∧
    micButtonAction SessionState.connecting = MicAction.disabled ∧
    micButtonAction SessionState.disconnected = MicAction.start ∧
    starterPromptsVisible SessionState.disconnected = true ∧
    starterPromptsVisible SessionState.connecting = false ∧
    starterPromptsVisible SessionState.connected = false ∧
    starterPromptsVisible SessionState.error = false := by
  refine ⟨rfl, by decide, by decide, by decide, by decide, by decide, by decide, by decide⟩

/-- C3 counterexample: an event carrying both an output delta "A" and an
input delta "B", handled in a state whose user accumulator holds "x",
leaves the user accumulator at "x": the input delta is dropped, not
appended as the claim states. -/
theorem C3_both_deltas_cex :
    (onmessage ⟨some "A", some "B", false, none, false⟩ 0 0 preState).currentInput = "x" ∧
    (onmessage ⟨some "A", some "B", false, none, false⟩ 0 0 preState).currentOutput = "A" ∧
    "x" ≠ "x" ++ "B" := by
  refine ⟨rfl, rfl, by decide⟩

/-- C3 amended: on a transcription event the output delta is appended to
the model accumulator; the input delta is appended to the user accumulator
only when the event carries no output delta — when both payloads are
present the input delta is dropped by the else-if. -/
theorem C3_delta_append (t u : String) (dt : ℚ) (now : Nat) (s : AppState) :
    onmessage ⟨some t, some u, false, none, false⟩ dt now s
        = { s with currentOutput := s.currentOutput ++ t } ∧
    onmessage ⟨some t, none, false, none, false⟩ dt now s
        = { s with currentOutput := s.currentOutput ++ t } ∧
    onmessage ⟨none, some u, false, none, false⟩ dt now s
        = { s with currentInput := s.currentInput ++ u } :=
  ⟨rfl, rfl, rfl⟩

/-- C2: on a turnComplete event both accumulators are reset to empty, the
log is extended by one user turn when the trimmed user text is non-empty
and then one model turn when the trimmed model text is non-empty — in that
fixed order, each carrying the current timestamp and a freshly generated
id — and nothing is appended when both trimmed texts are empty; the id
generator is advanced past every id that was handed out. -/
theorem C2_turn_commit (dt : ℚ) (now : Nat) (s : AppState) :
    (onmessage ⟨none, none, true, none, false⟩ dt now s).currentInput = "" ∧
    (onmessage ⟨none, none, true, none, false⟩ dt now s).currentOutput = "" ∧
    (onmessage ⟨none, none, true, none, false⟩ dt now s).messages
      = s.messages
        ++ (if s.currentInput.trim = "" then []
            else [{ id := s.uuidCounter, role := Role.user,
                    text := s.currentInput.trim, timestamp := now }])
        ++ (if s.currentOutput.trim = "" then []
            else [{ id := s.uuidCounter + (if s.currentInput.trim = "" then 0 else 1),
                    role := Role.model, text := s.currentOutput.trim, timestamp := now }]) ∧
    (onmessage ⟨none, none, true, none, false⟩ dt now s).uuidCounter
      = s.uuidCounter + (if s.currentInput.trim = "" then 0 else 1)
          + (if s.currentOutput.trim = "" then 0 else 1) := by
  by_cases hu : s.currentInput.trim = "" <;>
    by_cases hm : s.currentOutput.trim = "" <;>
      simp [onmessage, appendTranscripts, handleTurnComplete, hu, hm]

lemma chunkDuration_nonneg (n : Nat) : 0 ≤ chunkDuration n := by
  unfold chunkDuration SAMPLE_RATE
  positivity

lemma appendTranscripts_nextStartTime (msg : ServerContent) (s : AppState) :
    (appendTranscripts msg s).nextStartTime = s.nextStartTime := by
  unfold appendTranscripts
  cases msg.outputTranscription <;> cases msg.inputTranscription <;> rfl

lemma handleTurnComplete_nextStartTime (now : Nat) (s : AppState) :
    (handleTurnComplete now s).nextStartTime = s.nextStartTime := by
  by_cases hu : s.currentInput.trim = "" <;>
    by_cases hm : s.currentOutput.trim = "" <;>
      simp [handleTurnComplete, hu, hm]

lemma scheduleAudio_nextStartTime (n : Nat) (t : ℚ) (s : AppState) :
    (scheduleAudio n t s).nextStartTime = max s.nextStartTime t + chunkDuration n := rfl

/-- C7: the virtual clock never decreases across a transport event that
carries no interruption; an interruption event and each of the three ways a
session ends (stop, transport error, transport close) reset it to exactly
zero; and no other operation of the component — starting a session, the
open callback, the connect-promise resolution, the transcript-delta
handling, the turn commit — changes it at all. -/
theorem C7_clock_invariant (o i : Option String) (tc : Bool) (au : Option Nat)
    (hdl : Nat) (dt : ℚ) (now : Nat) (s : AppState) :
    s.nextStartTime ≤ (onmessage ⟨o, i, tc, au, false⟩ dt now s).nextStartTime ∧
    (onmessage ⟨o, i, tc, au, true⟩ dt now s).nextStartTime = 0 ∧
    (stopSession s).1.nextStartTime = 0 ∧
    (onerror s).1.nextStartTime = 0 ∧
    (onclose s).1.nextStartTime = 0 ∧
    (startSessionBegin s).nextStartTime = s.nextStartTime ∧
    (onopen s).nextStartTime = s.nextStartTime ∧
    (sessionResolve hdl s).nextStartTime = s.nextStartTime ∧
    (appendTranscripts ⟨o, i, tc, au, false⟩ s).nextStartTime = s.nextStartTime ∧
    (handleTurnComplete now s).nextStartTime = s.nextStartTime := by
  refine ⟨?_, rfl, rfl, rfl, rfl, rfl, rfl, rfl,
    appendTranscripts_nextStartTime _ _, handleTurnComplete_nextStartTime _ _⟩
  cases au with
  | none =>
      cases tc <;>
        simp [onmessage, appendTranscripts_nextStartTime, handleTurnComplete_nextStartTime]
  | some n =>
      have hle : s.nextStartTime ≤ max s.nextStartTime dt + chunkDuration n :=
        (le_max_left _ _).trans (le_add_of_nonneg_right (chunkDuration_nonneg n))
      cases tc <;>
        simpa [onmessage, scheduleAudio_nextStartTime, appendTranscripts_nextStartTime,
          handleTurnComplete_nextStartTime] using hle

/-- C4: after any event whose interrupted flag is set, the active source
set is empty and the virtual clock is zero, and an item scheduled on the
resulting state becomes the sole active source with start time
max 0 deviceTime, which is at or after the device time. -/
theorem C4_interrupt_flush (o i : Option String) (tc : Bool) (au : Option Nat)
    (dt : ℚ) (now : Nat) (s : AppState) :
    (onmessage ⟨o, i, tc, au, true⟩ dt now s).sources = [] ∧
    (onmessage ⟨o, i, tc, au, true⟩ dt now s).nextStartTime = 0 ∧
    (∀ t n, (scheduleAudio n t (onmessage ⟨o, i, tc, au, true⟩ dt now s)).sources
          = [{ startTime := max 0 t, duration := chunkDuration n }] ∧
        t ≤ max 0 t) ∧
    ∀ (s2 : AppState) t n,
      (scheduleAudio n t s2).sources
          = s2.sources ++ [{ startTime := max s2.nextStartTime t, duration := chunkDuration n }] ∧
        t ≤ max s2.nextStartTime t :=
  ⟨rfl, rfl, fun t _ => ⟨rfl, le_max_right 0 t⟩,
    fun s2 t _ => ⟨rfl, le_max_right s2.nextStartTime t⟩⟩

/-- C1 counterexample: two one-second chunks where the second one is
scheduled only once the output device time has reached 5 s (the first chunk
ended at 1 s).  The second source starts at 5 s, not at the claimed
first-start-plus-previous-durations 0 + 1 s: arrival timing does matter,
and a gap appears when the device time overtakes the virtual clock. -/
theorem C1_gap_cex :
    (runSchedule [(0, 24000), (5, 24000)] initState).sources
        = [{ startTime := 0, duration := 1 }, { startTime := 5, duration := 1 }] ∧
    chunkDuration 24000 = 1 ∧
    (5 : ℚ) ≠ 0 + 1 := by
  refine ⟨?_, ?_, by norm_num⟩
  · norm_num [runSchedule, scheduleAudio, initState, chunkDuration, SAMPLE_RATE, max_def,
      Source.mk.injEq]
  · norm_num [chunkDuration, SAMPLE_RATE]

lemma runSchedule_sources_onTime (items : List (ℚ × Nat)) :
    ∀ s : AppState, laterArrivalsOnTime s.nextStartTime items = true →
      (runSchedule items s).sources
        = s.sources ++ backToBack s.nextStartTime (items.map Prod.snd) := by
  induction items with
  | nil =>
      intro s _
      simp [runSchedule, backToBack]
  | cons p rest ih =>
      obtain ⟨t, n⟩ := p
      intro s h
      rw [laterArrivalsOnTime] at h
      rw [Bool.and_eq_true, decide_eq_true_eq] at h
      obtain ⟨ht, hrest⟩ := h
      have hmax : max s.nextStartTime t = s.nextStartTime := max_eq_left ht
      have h2 := ih (scheduleAudio n t s) hrest
      rw [show runSchedule ((t, n) :: rest) s = runSchedule rest (scheduleAudio n t s) from rfl, h2]
      simp [scheduleAudio, backToBack, hmax, List.append_assoc]

/-- C1 amended: provided every chunk after the first reaches the scheduler
while the device time is still at most the virtual clock (the previously
scheduled audio has not run out), the scheduled sources are exactly
back-to-back: the n-th start time is the first start time plus the sum of
the previous durations, with no gap and no overlap.  The first chunk
itself starts at max of the inherited clock and its device time. -/
theorem C1_back_to_back (s : AppState) (t1 : ℚ) (n1 : Nat) (rest : List (ℚ × Nat))
    (h : laterArrivalsOnTime (max s.nextStartTime t1 + chunkDuration n1) rest = true) :
    (runSchedule ((t1, n1) :: rest) s).sources
      = s.sources ++ backToBack (max s.nextStartTime t1) (n1 :: rest.map Prod.snd) := by
  have h2 := runSchedule_sources_onTime rest (scheduleAudio n1 t1 s) h
  rw [show runSchedule ((t1, n1) :: rest) s = runSchedule rest (scheduleAudio n1 t1 s) from rfl, h2]
  simp [scheduleAudio, backToBack, List.append_assoc]

/-- C1 amended, witness: from the initial state, a one-second chunk
arriving at device time 2 followed by a two-second chunk arriving at device
time 3 (on time: the first chunk plays until 3) yields sources at 2 s and
3 s, back to back. -/
theorem C1_back_to_back_witness :
    (runSchedule [(2, 24000), (3, 48000)] initState).sources
      = [{ startTime := 2, duration := 1 }, { startTime := 3, duration := 2 }] := by
  have h := C1_back_to_back initState 2 24000 [(3, 48000)]
    (by norm_num [laterArrivalsOnTime, initState, chunkDuration, SAMPLE_RATE, max_def])
  rw [h]
  norm_num [initState, backToBack, chunkDuration, SAMPLE_RATE, max_def, Source.mk.injEq]

end EgoMirror
